import Mathlib

/-!
Verification of the SPL (Select/Plot Language) recursive-descent parser.

The repository carries two copies of the parser: the TypeScript source
(src/parser.ts) and a compiled JavaScript copy together with its declared
types (ColumnMetadata, PlotClause, WhereCondition, SPLQuery, ...).  Both are
embedded below as pure state-passing functions over a token stream.  The
shared helpers (token consumption, the WHERE-condition grammar, GROUPBY,
LIMIT/OFFSET) are textually identical in the two copies and are therefore
defined once; the three places where the copies differ (the select clause,
the column descriptor, the plot-argument payloads) get one definition each
per copy, prefixed `js` (compiled copy) and `ts` (TypeScript source).

The lexer is not part of the embedded source; token streams are supplied
directly, and the scan position is modelled abstractly as the count of
tokens handed out so far.
-/

/-- Token kinds, the closed set from the repository's type declarations. -/
inductive TokenType where
  | KEYWORD
  | IDENTIFIER
  | PLOT_FUNCTION
  | LPAREN
  | RPAREN
  | COMMA
  | STRING
  | NUMBER
  | NULL
  | COMPARISON_OPERATOR
  | LOGICAL_OPERATOR
  | AGGREGATION_FUNCTION
  | EOF
deriving DecidableEq, Repr

/-- A token: a kind paired with its literal text. -/
structure Token where
  type : TokenType
  value : String
deriving DecidableEq, Repr

/-- Modelled from the spec: the lexer is not under src/, so the parser state
keeps the not-yet-consumed tokens directly; `pos` models the lexer's
`currentPosition` abstractly as the number of tokens consumed so far. -/
structure ParserState where
  toks : List Token
  pos : Nat
deriving DecidableEq, Repr

/-- Modelled from the spec: the lexer returns an end-of-input token forever
once input is exhausted, so the lookahead past the last supplied token is a
synthetic EOF token. -/
def curTok (st : ParserState) : Token := st.toks.headD ⟨.EOF, ""⟩

/-- One `nextToken()` pull: drop the current token, advance the position. -/
def advance (st : ParserState) : ParserState := ⟨st.toks.tail, st.pos + 1⟩

/-- The one error kind of the core (`SPLError`), one constructor per raise
site in the parser: `_consumeToken`, `_consumePlotArgs`, `_consumeComparison`
and `_consumeComparisonValue`.  `fuelExhausted` is a modelling artifact that
bounds the embedded recursion and corresponds to no source behaviour. -/
inductive SPLError where
  | unexpectedToken (token : Token) (pos : Nat)
  | invalidPlotType (value : String)
  | invalidComparisonOperator (value : String)
  | equalComparisonNotAllowed
  | fuelExhausted
deriving DecidableEq, Repr

/-- Printable name of a token kind, as it appears in the source union type. -/
def tokenTypeName : TokenType → String
  | .KEYWORD => "KEYWORD"
  | .IDENTIFIER => "IDENTIFIER"
  | .PLOT_FUNCTION => "PLOT_FUNCTION"
  | .LPAREN => "LPAREN"
  | .RPAREN => "RPAREN"
  | .COMMA => "COMMA"
  | .STRING => "STRING"
  | .NUMBER => "NUMBER"
  | .NULL => "NULL"
  | .COMPARISON_OPERATOR => "COMPARISON_OPERATOR"
  | .LOGICAL_OPERATOR => "LOGICAL_OPERATOR"
  | .AGGREGATION_FUNCTION => "AGGREGATION_FUNCTION"
  | .EOF => "EOF"

/-- The `JSON.stringify` rendering of a token used in error messages. -/
def stringifyToken (t : Token) : String :=
  "\x7b\"type\":\"" ++ tokenTypeName t.type ++ "\",\"value\":\"" ++ t.value ++ "\"\x7d"

/-- The free-text message carried by each error, following the template
strings at the four raise sites of the source. -/
def SPLError.message : SPLError → String
  | .unexpectedToken t p =>
      "Unexpected token " ++ stringifyToken t ++ " at position " ++ toString p
  | .invalidPlotType v => "Invalid plot type " ++ v
  | .invalidComparisonOperator v => "Invalid comparison operator " ++ v
  | .equalComparisonNotAllowed =>
      "Equal comparison allowed only for string, number, and null"
  | .fuelExhausted => "fuel exhausted"

/-- A parsing step: consume part of the state, produce a value or fail. -/
def Parse (α : Type) : Type := ParserState → Except SPLError (α × ParserState)

/-- Sequencing of parsing steps (the `;` between consumption statements). -/
def pbind {α β : Type} (m : Parse α) (f : α → Parse β) : Parse β := fun st =>
  match m st with
  | .error e => .error e
  | .ok (a, st1) => f a st1

/-- A step that consumes nothing and returns a value. -/
def ppure {α : Type} (a : α) : Parse α := fun st => .ok (a, st)

/-- `_consumeToken(tokenType, value?)`: succeed and advance when the current
token has the expected kind (and the expected text when one is given),
otherwise raise the unexpected-token error at the current scan position. -/
def consumeToken (tt : TokenType) (v : Option String) : Parse Token := fun st =>
  let token := curTok st
  if token.type = tt ∧ (v = none ∨ v = some token.value) then
    .ok (token, advance st)
  else
    .error (.unexpectedToken token st.pos)

/-- Modelled from the spec: the numeric conversion `Number(...)` applied to a
number token's text.  The grammar's numeric literals in the claims are
unsigned integer strings, on which `Number` is ordinary decimal reading; the
model is restricted to that fragment. -/
def jsNumber (s : String) : Int :=
  Int.ofNat (s.toList.foldl (fun acc c => acc * 10 + (c.toNat - 48)) 0)

/-- The comparison value of an equality/inequality: string, number or null. -/
inductive CompValue where
  | str (s : String)
  | num (n : Int)
  | null
deriving DecidableEq, Repr

/-- `_consumeComparisonValue`: advance past the current token first, then
classify it; anything other than a string, number or null literal raises the
fixed-message error. -/
def consumeComparisonValue : Parse CompValue := fun st =>
  let token := curTok st
  let st1 := advance st
  match token.type with
  | .STRING => .ok (.str token.value, st1)
  | .NUMBER => .ok (.num (jsNumber token.value), st1)
  | .NULL => .ok (.null, st1)
  | _ => .error .equalComparisonNotAllowed

/-- The predicate tree (`WhereCondition`) of the declared AST types. -/
inductive WhereCondition where
  | and (cs : List WhereCondition)
  | or (cs : List WhereCondition)
  | gt (key : String) (value : Int)
  | gte (key : String) (value : Int)
  | lt (key : String) (value : Int)
  | lte (key : String) (value : Int)
  | eq (key : String) (value : CompValue)
  | neq (key : String) (value : CompValue)
deriving Repr

/-- `_consumeComparison`: identifier, comparison operator, then a value whose
allowed kind depends on the operator; relational operators demand a NUMBER
token, equality/inequality take any comparison value, and an operator text
outside the six raises the invalid-operator error. -/
def consumeComparison : Parse WhereCondition :=
  pbind (consumeToken .IDENTIFIER none) fun keyTok =>
  pbind (consumeToken .COMPARISON_OPERATOR none) fun opTok =>
  fun st =>
    if opTok.value = ">" then
      (pbind (consumeToken .NUMBER none) fun numTok =>
       ppure (.gt keyTok.value (jsNumber numTok.value))) st
    else if opTok.value = ">=" then
      (pbind (consumeToken .NUMBER none) fun numTok =>
       ppure (.gte keyTok.value (jsNumber numTok.value))) st
    else if opTok.value = "<" then
      (pbind (consumeToken .NUMBER none) fun numTok =>
       ppure (.lt keyTok.value (jsNumber numTok.value))) st
    else if opTok.value = "<=" then
      (pbind (consumeToken .NUMBER none) fun numTok =>
       ppure (.lte keyTok.value (jsNumber numTok.value))) st
    else if opTok.value = "=" then
      (pbind consumeComparisonValue fun v =>
       ppure (.eq keyTok.value v)) st
    else if opTok.value = "!=" then
      (pbind consumeComparisonValue fun v =>
       ppure (.neq keyTok.value v)) st
    else
      .error (.invalidComparisonOperator opTok.value)

/-! ### The WHERE-condition grammar

`_consumeCondition` / `_consumeConditionGroup` are mutually recursive through
parenthesised sub-conditions; the embedding makes the recursion explicit with
a fuel parameter (every recursive call at one less fuel).  The two source
loops (the inner AND loop and the outer OR loop) become the list-producing
functions `consumeAndListTail` and `consumeOrList`. -/

mutual

/-- `_consumeConditionGroup`: a comparison when the lookahead is an
identifier, otherwise a parenthesised condition. -/
def consumeConditionGroup : Nat → Parse WhereCondition
  | 0 => fun _ => .error .fuelExhausted
  | fuel+1 => fun st =>
    if (curTok st).type = .IDENTIFIER then consumeComparison st
    else
      (pbind (consumeToken .LPAREN none) fun _ =>
       pbind (consumeCondition fuel) fun c =>
       pbind (consumeToken .RPAREN none) fun _ =>
       ppure c) st

/-- The inner loop of `_consumeCondition`: as long as the lookahead text is
`AND`, consume the logical operator and a further condition group. -/
def consumeAndListTail : Nat → Parse (List WhereCondition)
  | 0 => fun _ => .error .fuelExhausted
  | fuel+1 => fun st =>
    if (curTok st).value = "AND" then
      (pbind (consumeToken .LOGICAL_OPERATOR none) fun _ =>
       pbind (consumeConditionGroup fuel) fun c =>
       pbind (consumeAndListTail fuel) fun cs =>
       ppure (c :: cs)) st
    else ppure [] st

/-- One AND-group of `_consumeCondition`: the first condition group followed
by the AND-tail; a single unit stays bare, two or more are wrapped in `and`. -/
def consumeAndGroup : Nat → Parse WhereCondition
  | 0 => fun _ => .error .fuelExhausted
  | fuel+1 =>
    pbind (consumeConditionGroup fuel) fun c =>
    pbind (consumeAndListTail fuel) fun cs =>
    ppure (match cs with | [] => c | _ => .and (c :: cs))

/-- The outer loop of `_consumeCondition`: OR-separated AND-groups; on the
text `OR` the source advances with a raw `nextToken()` pull (no kind check). -/
def consumeOrList : Nat → Parse (List WhereCondition)
  | 0 => fun _ => .error .fuelExhausted
  | fuel+1 => fun st =>
    (pbind (consumeAndGroup fuel) fun c =>
     fun st1 =>
       if (curTok st1).value = "OR" then
         (pbind (consumeOrList fuel) fun cs => ppure (c :: cs)) (advance st1)
       else ppure [c] st1) st

/-- `_consumeCondition`: the OR-separated groups; a single group is returned
bare, two or more are wrapped in `or`. -/
def consumeCondition : Nat → Parse WhereCondition
  | 0 => fun _ => .error .fuelExhausted
  | fuel+1 =>
    pbind (consumeOrList fuel) fun filters =>
    ppure (match filters with | [c] => c | _ => .or filters)

end

/-- `_consumeWhereClauseOptional`: absent unless the lookahead text is
`WHERE`; then a keyword-kind consumption and the condition tree. -/
def consumeWhereClauseOptional (fuel : Nat) : Parse (Option WhereCondition) := fun st =>
  if (curTok st).value ≠ "WHERE" then .ok (none, st)
  else
    (pbind (consumeToken .KEYWORD none) fun _ =>
     pbind (consumeCondition fuel) fun c =>
     ppure (some c)) st

/-- `_consumeGroupByClauseOptional`: absent unless the lookahead text is
`GROUPBY`; then a keyword and the grouping identifier. -/
def consumeGroupByClauseOptional : Parse (Option String) := fun st =>
  if (curTok st).value ≠ "GROUPBY" then .ok (none, st)
  else
    (pbind (consumeToken .KEYWORD none) fun _ =>
     pbind (consumeToken .IDENTIFIER none) fun t =>
     ppure (some t.value)) st

/-- The `limitAndOffset` record of the AST. -/
structure LimitAndOffset where
  limit : Int
  offset : Int
deriving DecidableEq, Repr

/-- `_consumeLimitAndOffsetClauseOptional`: absent unless the lookahead text
is `LIMIT`; then keyword and number, and an offset defaulting to 0 unless the
following token's text is `OFFSET`. -/
def consumeLimitAndOffsetClauseOptional : Parse (Option LimitAndOffset) := fun st =>
  if (curTok st).value ≠ "LIMIT" then .ok (none, st)
  else
    (pbind (consumeToken .KEYWORD none) fun _ =>
     pbind (consumeToken .NUMBER none) fun limTok =>
     fun st2 =>
       if (curTok st2).value ≠ "OFFSET" then
         .ok (some ⟨jsNumber limTok.value, 0⟩, st2)
       else
         (pbind (consumeToken .KEYWORD none) fun _ =>
          pbind (consumeToken .NUMBER none) fun offTok =>
          ppure (some ⟨jsNumber limTok.value, jsNumber offTok.value⟩)) st2) st

/-! ### Select clause and columns -/

/-- The select-clause do-while loop, shared by both copies and parameterised
by the column consumer: consume a column, then unconditionally a comma, and
repeat as long as the lookahead kind is not IDENTIFIER. -/
def selectLoop {α : Type} (col : Parse α) : Nat → Parse (List α)
  | 0 => fun _ => .error .fuelExhausted
  | fuel+1 => fun st =>
    match col st with
    | .error e => .error e
    | .ok (c, st1) =>
      match consumeToken .COMMA none st1 with
      | .error e => .error e
      | .ok (_, st2) =>
        if (curTok st2).type = .IDENTIFIER then .ok ([c], st2)
        else
          match selectLoop col fuel st2 with
          | .error e => .error e
          | .ok (cs, st3) => .ok (c :: cs, st3)

/-- The part of `_consumeColumn` shared by both copies: either an aggregation
function call — with an argument identifier except for COUNT — or a bare
identifier; the result pairs the optional column with the optional
aggregation-function text. -/
def consumeColumnCore : Parse (Option String × Option String) := fun st =>
  if (curTok st).type = .AGGREGATION_FUNCTION then
    (pbind (consumeToken .AGGREGATION_FUNCTION none) fun aggTok =>
     pbind (consumeToken .LPAREN none) fun _ =>
     pbind (fun st2 =>
       if aggTok.value ≠ "COUNT" then
         (pbind (consumeToken .IDENTIFIER none) fun colTok =>
          ppure (some colTok.value)) st2
       else ppure none st2) fun column =>
     pbind (consumeToken .RPAREN none) fun _ =>
     ppure (column, some aggTok.value)) st
  else
    (pbind (consumeToken .IDENTIFIER none) fun colTok =>
     ppure (some colTok.value, none)) st

/-- The optional `AS alias` tail of `_consumeColumn`, shared by both copies:
taken only when the lookahead text is `AS`. -/
def consumeAliasOptional : Parse (Option String) := fun st =>
  if (curTok st).value = "AS" then
    (pbind (consumeToken .KEYWORD none) fun _ =>
     pbind (consumeToken .IDENTIFIER none) fun aliasTok =>
     ppure (some aliasTok.value)) st
  else ppure none st

/-- The column descriptor of the declared AST types (`ColumnMetadata`),
produced by the compiled copy. -/
structure ColumnMetadata where
  identifier : Option String
  column : Option String
  aggregationFunction : Option String
deriving DecidableEq, Repr

/-- The column record the TypeScript source actually constructs: no
`identifier` field, an explicit-alias-only `displayName` instead. -/
structure TsColumnMetadata where
  column : Option String
  displayName : Option String
  aggregationFunction : Option String
deriving DecidableEq, Repr

/-- The display-name synthesis of the compiled copy: the explicit alias when
one was given (and non-empty, `!identifier` being JavaScript truthiness),
otherwise `FUNC(column)` for an aggregation, otherwise the bare column. -/
def jsIdentifier (aliasOpt column aggregationFunction : Option String) : Option String :=
  if aliasOpt = none ∨ aliasOpt = some "" then
    match aggregationFunction with
    | some f => some (f ++ "(" ++ column.getD "" ++ ")")
    | none => column
  else aliasOpt

/-- `_consumeColumn` of the compiled copy: core, optional alias, synthesised
`identifier`. -/
def jsConsumeColumn : Parse ColumnMetadata :=
  pbind consumeColumnCore fun ca =>
  pbind consumeAliasOptional fun aliasOpt =>
  ppure { identifier := jsIdentifier aliasOpt ca.1 ca.2
        , column := ca.1
        , aggregationFunction := ca.2 }

/-- `_consumeColumn` of the TypeScript source: core, optional alias kept as
`displayName`, no identifier synthesis. -/
def tsConsumeColumn : Parse TsColumnMetadata :=
  pbind consumeColumnCore fun ca =>
  pbind consumeAliasOptional fun aliasOpt =>
  ppure { column := ca.1
        , displayName := aliasOpt
        , aggregationFunction := ca.2 }

/-- `_consumeSelectClause` of the compiled copy: a mandatory `SELECT` keyword
and then the column/comma loop. -/
def jsConsumeSelectClause (fuel : Nat) : Parse (List ColumnMetadata) :=
  pbind (consumeToken .KEYWORD (some "SELECT")) fun _ =>
  selectLoop jsConsumeColumn fuel

/-- `_consumeSelectClause` of the TypeScript source: the column/comma loop
with no leading keyword consumption. -/
def tsConsumeSelectClause (fuel : Nat) : Parse (List TsColumnMetadata) :=
  selectLoop tsConsumeColumn fuel

/-! ### Plot clause -/

/-- The plot clause of the declared AST types: a categorical (bar) payload of
two identifier strings, or a point (line/scatter) payload of two identifier
strings tagged with the plot-function text. -/
inductive PlotClause where
  | bar (categoriesIdentifier valuesIdentifier : String)
  | point (plotFunction : String) (xIdentifier yIdentifier : String)
deriving DecidableEq, Repr

/-- The plot clause the TypeScript source constructs: full column descriptors
in place of identifier strings. -/
inductive TsPlotClause where
  | bar (categoriesColumn valuesColumn : TsColumnMetadata)
  | point (plotFunction : String) (xColumn yColumn : TsColumnMetadata)
deriving DecidableEq, Repr

/-- `_consumePlotArgs` of the compiled copy: dispatch on the consumed
plot-function text; BAR and LINE/SCATTER take `IDENT "," IDENT`, anything
else raises the invalid-plot-type error. -/
def jsConsumePlotArgs (plotFunction : String) : Parse PlotClause := fun st =>
  if plotFunction = "BAR" then
    (pbind (consumeToken .IDENTIFIER none) fun categoriesToken =>
     pbind (consumeToken .COMMA none) fun _ =>
     pbind (consumeToken .IDENTIFIER none) fun valuesToken =>
     ppure (.bar categoriesToken.value valuesToken.value)) st
  else if plotFunction = "LINE" ∨ plotFunction = "SCATTER" then
    (pbind (consumeToken .IDENTIFIER none) fun xToken =>
     pbind (consumeToken .COMMA none) fun _ =>
     pbind (consumeToken .IDENTIFIER none) fun yToken =>
     ppure (.point plotFunction xToken.value yToken.value)) st
  else .error (.invalidPlotType plotFunction)

/-- `_consumePlotArgs` of the TypeScript source: same dispatch, but the
arguments are consumed as full columns via `_consumeColumn`. -/
def tsConsumePlotArgs (plotFunction : String) : Parse TsPlotClause := fun st =>
  if plotFunction = "BAR" then
    (pbind tsConsumeColumn fun categoriesColumn =>
     pbind (consumeToken .COMMA none) fun _ =>
     pbind tsConsumeColumn fun valuesColumn =>
     ppure (.bar categoriesColumn valuesColumn)) st
  else if plotFunction = "LINE" ∨ plotFunction = "SCATTER" then
    (pbind tsConsumeColumn fun xColumn =>
     pbind (consumeToken .COMMA none) fun _ =>
     pbind tsConsumeColumn fun yColumn =>
     ppure (.point plotFunction xColumn yColumn)) st
  else .error (.invalidPlotType plotFunction)

/-- `_consumePlotClauseOptional` of the compiled copy: absent unless the
lookahead text is `PLOT`; then keyword, plot-function token, and the
parenthesised arguments. -/
def jsConsumePlotClauseOptional : Parse (Option PlotClause) := fun st =>
  if (curTok st).value ≠ "PLOT" then .ok (none, st)
  else
    (pbind (consumeToken .KEYWORD (some "PLOT")) fun _ =>
     pbind (consumeToken .PLOT_FUNCTION none) fun pf =>
     pbind (consumeToken .LPAREN none) fun _ =>
     pbind (jsConsumePlotArgs pf.value) fun pc =>
     pbind (consumeToken .RPAREN none) fun _ =>
     ppure (some pc)) st

/-- `_consumePlotClauseOptional` of the TypeScript source. -/
def tsConsumePlotClauseOptional : Parse (Option TsPlotClause) := fun st =>
  if (curTok st).value ≠ "PLOT" then .ok (none, st)
  else
    (pbind (consumeToken .KEYWORD (some "PLOT")) fun _ =>
     pbind (consumeToken .PLOT_FUNCTION none) fun pf =>
     pbind (consumeToken .LPAREN none) fun _ =>
     pbind (tsConsumePlotArgs pf.value) fun pc =>
     pbind (consumeToken .RPAREN none) fun _ =>
     ppure (some pc)) st

/-! ### The whole query -/

/-- The parse result (`SPLQuery`) of the declared AST types. -/
structure SPLQuery where
  plotClause : Option PlotClause
  selectColumns : List ColumnMetadata
  whereCondition : Option WhereCondition
  groupKey : Option String
  limitAndOffset : Option LimitAndOffset
deriving Repr

/-- The parse result the TypeScript source constructs. -/
structure TsSPLQuery where
  plotClause : Option TsPlotClause
  selectColumns : List TsColumnMetadata
  whereCondition : Option WhereCondition
  groupKey : Option String
  limitAndOffset : Option LimitAndOffset
deriving Repr

/-- The five clause consumptions of `parse()` in the compiled copy, before
the final end-of-input check. -/
def jsParseClauses (fuel : Nat) : Parse SPLQuery :=
  pbind jsConsumePlotClauseOptional fun plotClause =>
  pbind (jsConsumeSelectClause fuel) fun selectColumns =>
  pbind (consumeWhereClauseOptional fuel) fun whereCondition =>
  pbind consumeGroupByClauseOptional fun groupKey =>
  pbind consumeLimitAndOffsetClauseOptional fun limitAndOffset =>
  ppure { plotClause, selectColumns, whereCondition, groupKey, limitAndOffset }

/-- `parse()` of the compiled copy: the five clauses, then the mandatory
end-of-input token. -/
def jsParse (fuel : Nat) : Parse SPLQuery :=
  pbind (jsParseClauses fuel) fun q =>
  pbind (consumeToken .EOF none) fun _ =>
  ppure q

/-- The five clause consumptions of `parse()` in the TypeScript source. -/
def tsParseClauses (fuel : Nat) : Parse TsSPLQuery :=
  pbind tsConsumePlotClauseOptional fun plotClause =>
  pbind (tsConsumeSelectClause fuel) fun selectColumns =>
  pbind (consumeWhereClauseOptional fuel) fun whereCondition =>
  pbind consumeGroupByClauseOptional fun groupKey =>
  pbind consumeLimitAndOffsetClauseOptional fun limitAndOffset =>
  ppure { plotClause, selectColumns, whereCondition, groupKey, limitAndOffset }

/-- `parse()` of the TypeScript source. -/
def tsParse (fuel : Nat) : Parse TsSPLQuery :=
  pbind (tsParseClauses fuel) fun q =>
  pbind (consumeToken .EOF none) fun _ =>
  ppure q

/-! ### Observables and invariants -/

/-- Whether a parsing step produced a value (no error was thrown). -/
def exceptOk {ε α : Type} : Except ε α → Bool
  | .ok _ => true
  | .error _ => false

/-- The scan position recorded in an unexpected-token failure, if that is
what the step raised. -/
def errPos {α : Type} : Except SPLError α → Option Nat
  | .error (.unexpectedToken _ p) => some p
  | _ => none

mutual

/-- The data-model invariant on predicate trees: every `and` and every `or`
node has at least two children, recursively. -/
def WhereCondition.wellFormed : WhereCondition → Bool
  | .and cs => decide (2 ≤ cs.length) && wellFormedList cs
  | .or cs => decide (2 ≤ cs.length) && wellFormedList cs
  | .gt _ _ => true
  | .gte _ _ => true
  | .lt _ _ => true
  | .lte _ _ => true
  | .eq _ _ => true
  | .neq _ _ => true

/-- The invariant on a list of predicate trees. -/
def wellFormedList : List WhereCondition → Bool
  | [] => true
  | c :: cs => c.wellFormed && wellFormedList cs

end

/-- Substring test: some contiguous run of `hay` equals `needle`. -/
def containsSub (hay needle : String) : Bool :=
  (List.range (hay.length + 1)).any fun i =>
    ((hay.toList.drop i).take needle.length) == needle.toList

/-! ### Token streams for the example queries

Modelled from the spec: the lexer is not under src/; per its contract the
reserved words `SELECT, WHERE, GROUPBY, LIMIT, OFFSET, AS, PLOT` lex as
KEYWORD tokens, plot-function and aggregation-function names as their own
kinds, and operators, parentheses, commas, numbers, strings and identifiers
as the remaining kinds. -/

namespace Tok

/-- A keyword token. -/
def kw (s : String) : Token := ⟨.KEYWORD, s⟩

/-- An identifier token. -/
def ident (s : String) : Token := ⟨.IDENTIFIER, s⟩

/-- A number token. -/
def num (s : String) : Token := ⟨.NUMBER, s⟩

/-- A string-literal token. -/
def strLit (s : String) : Token := ⟨.STRING, s⟩

/-- A comparison-operator token. -/
def cmp (s : String) : Token := ⟨.COMPARISON_OPERATOR, s⟩

/-- A logical-operator token. -/
def lop (s : String) : Token := ⟨.LOGICAL_OPERATOR, s⟩

/-- An aggregation-function token. -/
def agg (s : String) : Token := ⟨.AGGREGATION_FUNCTION, s⟩

/-- A plot-function token. -/
def plotFn (s : String) : Token := ⟨.PLOT_FUNCTION, s⟩

/-- A left-parenthesis token. -/
def lp : Token := ⟨.LPAREN, "("⟩

/-- A right-parenthesis token. -/
def rp : Token := ⟨.RPAREN, ")"⟩

/-- A comma token. -/
def comma : Token := ⟨.COMMA, ","⟩

/-- The null-literal token. -/
def nul : Token := ⟨.NULL, "NULL"⟩

/-- The end-of-input token. -/
def eof : Token := ⟨.EOF, ""⟩

end Tok

/-! ### Helper lemmas -/

theorem pbind_ok {α β : Type} {m : Parse α} {f : α → Parse β} {st : ParserState}
    {b : β} {st2 : ParserState} (h : pbind m f st = .ok (b, st2)) :
    ∃ a st1, m st = .ok (a, st1) ∧ f a st1 = .ok (b, st2) := by
  unfold pbind at h
  split at h
  · simp at h
  · next a st1 he => exact ⟨a, st1, he, h⟩

theorem selectLoop_ok {α : Type} (col : Parse α) :
    ∀ (fuel : Nat) (st : ParserState) (cs : List α) (st2 : ParserState),
      selectLoop col fuel st = .ok (cs, st2) →
      (curTok st2).type = .IDENTIFIER ∧ 1 ≤ cs.length := by
  intro fuel
  induction fuel with
  | zero =>
    intro st cs st2 h
    simp [selectLoop] at h
  | succ f ih =>
    intro st cs st2 h
    unfold selectLoop at h
    split at h
    · simp at h
    · split at h
      · simp at h
      · split at h
        · next hident =>
          simp only [Except.ok.injEq, Prod.mk.injEq] at h
          obtain ⟨hcs, hst⟩ := h
          subst hst
          exact ⟨hident, by simp [← hcs]⟩
        · split at h
          · simp at h
          · next cs3 st3 hrec =>
            simp only [Except.ok.injEq, Prod.mk.injEq] at h
            obtain ⟨hcs, hst⟩ := h
            subst hst
            have := ih _ _ _ hrec
            exact ⟨this.1, by simp [← hcs]⟩

theorem consumeToken_not_ok {tt : TokenType} {v : Option String} {st : ParserState}
    (h : (curTok st).type ≠ tt) :
    consumeToken tt v st = .error (.unexpectedToken (curTok st) st.pos) := by
  unfold consumeToken
  simp [h]

theorem whereOptional_of_ident {fuel : Nat} {st : ParserState}
    (hid : (curTok st).type = .IDENTIFIER)
    {w : Option WhereCondition} {st2 : ParserState}
    (h : consumeWhereClauseOptional fuel st = .ok (w, st2)) : w = none ∧ st2 = st := by
  unfold consumeWhereClauseOptional at h
  split at h
  · simp only [Except.ok.injEq, Prod.mk.injEq] at h
    exact ⟨h.1.symm, h.2.symm⟩
  · exfalso
    obtain ⟨t, st1, ht, _⟩ := pbind_ok h
    rw [consumeToken_not_ok (by rw [hid]; simp)] at ht
    simp at ht

theorem groupByOptional_of_ident {st : ParserState}
    (hid : (curTok st).type = .IDENTIFIER)
    {g : Option String} {st2 : ParserState}
    (h : consumeGroupByClauseOptional st = .ok (g, st2)) : g = none ∧ st2 = st := by
  unfold consumeGroupByClauseOptional at h
  split at h
  · simp only [Except.ok.injEq, Prod.mk.injEq] at h
    exact ⟨h.1.symm, h.2.symm⟩
  · exfalso
    obtain ⟨t, st1, ht, _⟩ := pbind_ok h
    rw [consumeToken_not_ok (by rw [hid]; simp)] at ht
    simp at ht

theorem limitOptional_of_ident {st : ParserState}
    (hid : (curTok st).type = .IDENTIFIER)
    {l : Option LimitAndOffset} {st2 : ParserState}
    (h : consumeLimitAndOffsetClauseOptional st = .ok (l, st2)) : l = none ∧ st2 = st := by
  unfold consumeLimitAndOffsetClauseOptional at h
  split at h
  · simp only [Except.ok.injEq, Prod.mk.injEq] at h
    exact ⟨h.1.symm, h.2.symm⟩
  · exfalso
    obtain ⟨t, st1, ht, _⟩ := pbind_ok h
    rw [consumeToken_not_ok (by rw [hid]; simp)] at ht
    simp at ht

theorem jsParse_not_ok (fuel : Nat) (st : ParserState) :
    exceptOk (jsParse fuel st) = false := by
  cases h : jsParse fuel st with
  | error e => rfl
  | ok r =>
    exfalso
    obtain ⟨q, stq⟩ := r
    unfold jsParse at h
    obtain ⟨q1, st5, hcl, h⟩ := pbind_ok h
    obtain ⟨tk, st6, heof, _⟩ := pbind_ok h
    unfold jsParseClauses at hcl
    obtain ⟨pc, st1, _, hcl⟩ := pbind_ok hcl
    obtain ⟨cols, st2, hsel, hcl⟩ := pbind_ok hcl
    obtain ⟨w, st3, hwh, hcl⟩ := pbind_ok hcl
    obtain ⟨g, st4, hgb, hcl⟩ := pbind_ok hcl
    obtain ⟨l, st5x, hlim, hcl⟩ := pbind_ok hcl
    have hid2 : (curTok st2).type = .IDENTIFIER := by
      unfold jsConsumeSelectClause at hsel
      obtain ⟨_, stk, _, hsel⟩ := pbind_ok hsel
      exact (selectLoop_ok _ _ _ _ _ hsel).1
    obtain ⟨_, hst3⟩ := whereOptional_of_ident hid2 hwh
    have hid3 : (curTok st3).type = .IDENTIFIER := by rw [hst3]; exact hid2
    obtain ⟨_, hst4⟩ := groupByOptional_of_ident hid3 hgb
    have hid4 : (curTok st4).type = .IDENTIFIER := by rw [hst4]; exact hid3
    obtain ⟨_, hst5x⟩ := limitOptional_of_ident hid4 hlim
    have hid5x : (curTok st5x).type = .IDENTIFIER := by rw [hst5x]; exact hid4
    have hst5 : st5 = st5x := by
      unfold ppure at hcl
      simp only [Except.ok.injEq, Prod.mk.injEq] at hcl
      exact hcl.2.symm
    have hid5 : (curTok st5).type = .IDENTIFIER := by rw [hst5]; exact hid5x
    rw [consumeToken_not_ok (by rw [hid5]; simp)] at heof
    simp at heof

theorem tsParse_not_ok (fuel : Nat) (st : ParserState) :
    exceptOk (tsParse fuel st) = false := by
  cases h : tsParse fuel st with
  | error e => rfl
  | ok r =>
    exfalso
    obtain ⟨q, stq⟩ := r
    unfold tsParse at h
    obtain ⟨q1, st5, hcl, h⟩ := pbind_ok h
    obtain ⟨tk, st6, heof, _⟩ := pbind_ok h
    unfold tsParseClauses at hcl
    obtain ⟨pc, st1, _, hcl⟩ := pbind_ok hcl
    obtain ⟨cols, st2, hsel, hcl⟩ := pbind_ok hcl
    obtain ⟨w, st3, hwh, hcl⟩ := pbind_ok hcl
    obtain ⟨g, st4, hgb, hcl⟩ := pbind_ok hcl
    obtain ⟨l, st5x, hlim, hcl⟩ := pbind_ok hcl
    have hid2 : (curTok st2).type = .IDENTIFIER := by
      unfold tsConsumeSelectClause at hsel
      exact (selectLoop_ok _ _ _ _ _ hsel).1
    obtain ⟨_, hst3⟩ := whereOptional_of_ident hid2 hwh
    have hid3 : (curTok st3).type = .IDENTIFIER := by rw [hst3]; exact hid2
    obtain ⟨_, hst4⟩ := groupByOptional_of_ident hid3 hgb
    have hid4 : (curTok st4).type = .IDENTIFIER := by rw [hst4]; exact hid3
    obtain ⟨_, hst5x⟩ := limitOptional_of_ident hid4 hlim
    have hid5x : (curTok st5x).type = .IDENTIFIER := by rw [hst5x]; exact hid4
    have hst5 : st5 = st5x := by
      unfold ppure at hcl
      simp only [Except.ok.injEq, Prod.mk.injEq] at hcl
      exact hcl.2.symm
    have hid5 : (curTok st5).type = .IDENTIFIER := by rw [hst5]; exact hid5x
    rw [consumeToken_not_ok (by rw [hid5]; simp)] at heof
    simp at heof

theorem consumeComparison_wf {st : ParserState} {c : WhereCondition} {st2 : ParserState}
    (h : consumeComparison st = .ok (c, st2)) : c.wellFormed = true := by
  unfold consumeComparison at h
  obtain ⟨keyTok, sta, _, h⟩ := pbind_ok h
  obtain ⟨opTok, stb, _, h⟩ := pbind_ok h
  split_ifs at h <;>
    first
      | simp at h
      | (obtain ⟨_, _, _, h⟩ := pbind_ok h
         simp only [ppure, Except.ok.injEq, Prod.mk.injEq] at h
         rw [← h.1]
         rfl)

theorem condition_wf_all :
    ∀ fuel : Nat,
      (∀ st c st2, consumeConditionGroup fuel st = .ok (c, st2) → c.wellFormed = true) ∧
      (∀ st cs st2, consumeAndListTail fuel st = .ok (cs, st2) → wellFormedList cs = true) ∧
      (∀ st c st2, consumeAndGroup fuel st = .ok (c, st2) → c.wellFormed = true) ∧
      (∀ st cs st2, consumeOrList fuel st = .ok (cs, st2) → wellFormedList cs = true ∧ cs ≠ []) ∧
      (∀ st c st2, consumeCondition fuel st = .ok (c, st2) → c.wellFormed = true) := by
  intro fuel
  induction fuel with
  | zero =>
    refine ⟨?_, ?_, ?_, ?_, ?_⟩ <;> intro st x st2 h <;>
      simp [consumeConditionGroup, consumeAndListTail, consumeAndGroup,
            consumeOrList, consumeCondition] at h
  | succ f ih =>
    obtain ⟨ihG, ihAL, ihAG, ihOL, ihC⟩ := ih
    refine ⟨?_, ?_, ?_, ?_, ?_⟩
    · intro st c st2 h
      unfold consumeConditionGroup at h
      split at h
      · exact consumeComparison_wf h
      · obtain ⟨_, s1, _, h⟩ := pbind_ok h
        obtain ⟨c1, s2, hc1, h⟩ := pbind_ok h
        obtain ⟨_, s3, _, h⟩ := pbind_ok h
        simp only [ppure, Except.ok.injEq, Prod.mk.injEq] at h
        rw [← h.1]
        exact ihC _ _ _ hc1
    · intro st cs st2 h
      unfold consumeAndListTail at h
      split at h
      · obtain ⟨_, s1, _, h⟩ := pbind_ok h
        obtain ⟨c1, s2, hc1, h⟩ := pbind_ok h
        obtain ⟨cs1, s3, hcs1, h⟩ := pbind_ok h
        simp only [ppure, Except.ok.injEq, Prod.mk.injEq] at h
        rw [← h.1]
        simp [wellFormedList, ihG _ _ _ hc1, ihAL _ _ _ hcs1]
      · simp only [ppure, Except.ok.injEq, Prod.mk.injEq] at h
        rw [← h.1]
        simp [wellFormedList]
    · intro st c st2 h
      unfold consumeAndGroup at h
      obtain ⟨c1, s1, hc1, h⟩ := pbind_ok h
      obtain ⟨cs1, s2, hcs1, h⟩ := pbind_ok h
      simp only [ppure, Except.ok.injEq, Prod.mk.injEq] at h
      rw [← h.1]
      cases cs1 with
      | nil => simpa using ihG _ _ _ hc1
      | cons d ds =>
        have hg := ihG _ _ _ hc1
        have hl := ihAL _ _ _ hcs1
        simp only [WhereCondition.wellFormed, wellFormedList, hg, Bool.true_and,
          Bool.and_eq_true, decide_eq_true_eq, List.length_cons] at hl ⊢
        refine ⟨by omega, ?_⟩
        simpa [wellFormedList] using hl
    · intro st cs st2 h
      unfold consumeOrList at h
      obtain ⟨c1, s1, hc1, h⟩ := pbind_ok h
      split at h
      · obtain ⟨cs1, s2, hcs1, h⟩ := pbind_ok h
        simp only [ppure, Except.ok.injEq, Prod.mk.injEq] at h
        rw [← h.1]
        have hrest := ihOL _ _ _ hcs1
        simp [wellFormedList, ihAG _ _ _ hc1, hrest.1]
      · simp only [ppure, Except.ok.injEq, Prod.mk.injEq] at h
        rw [← h.1]
        simp [wellFormedList, ihAG _ _ _ hc1]
    · intro st c st2 h
      unfold consumeCondition at h
      obtain ⟨fs, s1, hfs, h⟩ := pbind_ok h
      simp only [ppure, Except.ok.injEq, Prod.mk.injEq] at h
      rw [← h.1]
      obtain ⟨hwf, hne⟩ := ihOL _ _ _ hfs
      cases fs with
      | nil => exact absurd rfl hne
      | cons d ds =>
        cases ds with
        | nil => simpa [wellFormedList] using hwf
        | cons e es =>
          simp only [WhereCondition.wellFormed, Bool.and_eq_true, decide_eq_true_eq,
            List.length_cons]
          exact ⟨by omega, hwf⟩

/-- A string that occurs between two others is a substring. -/
theorem containsSub_append (a b c : String) : containsSub (a ++ b ++ c) b = true := by
  unfold containsSub
  rw [List.any_eq_true]
  refine ⟨a.length, List.mem_range.mpr ?_, ?_⟩
  · rw [String.length_append, String.length_append]
    omega
  · rw [beq_iff_eq]
    have hdata : (a ++ b ++ c).toList = a.toList ++ (b.toList ++ c.toList) := by
      show (a ++ b ++ c).data = a.data ++ (b.data ++ c.data)
      rw [String.data_append, String.data_append, List.append_assoc]
    rw [hdata]
    have hlen : a.length = a.toList.length := rfl
    rw [hlen, List.drop_left]
    have hlenb : b.length = b.toList.length := rfl
    rw [hlenb, List.take_left]


/-- When the first step succeeds, a sequence continues with the rest. -/
theorem pbind_eq_of_ok {α β : Type} {m : Parse α} {f : α → Parse β}
    {st st1 : ParserState} {a : α} (h : m st = .ok (a, st1)) :
    pbind m f st = f a st1 := by
  unfold pbind
  rw [h]

/-- When the first step fails, a sequence fails with the same error. -/
theorem pbind_eq_of_error {α β : Type} {m : Parse α} {f : α → Parse β}
    {st : ParserState} {e : SPLError} (h : m st = .error e) :
    pbind m f st = .error e := by
  unfold pbind
  rw [h]

/-! ### The claims -/

/-- C1: AND binds tighter than OR in `_consumeCondition`: the token stream of
`k1 = v1 OR k2 = v2 AND k3 = v3` parses, for any identifiers and number
texts, to the flat two-level tree whose OR node holds the first equality and
an AND node of the second and third — matching the spec's example
`{or: [{eq a 1}, {and: [{eq b 2}, {eq c 3}]}]}`. -/
theorem c1_and_binds_tighter_than_or (k1 k2 k3 v1 v2 v3 : String) (p : Nat) :
    consumeCondition 32 ⟨[Tok.ident k1, Tok.cmp "=", Tok.num v1, Tok.lop "OR",
        Tok.ident k2, Tok.cmp "=", Tok.num v2, Tok.lop "AND",
        Tok.ident k3, Tok.cmp "=", Tok.num v3], p⟩ =
      .ok (.or [.eq k1 (.num (jsNumber v1)),
                .and [.eq k2 (.num (jsNumber v2)), .eq k3 (.num (jsNumber v3))]],
           ⟨[], p + 11⟩) := by
  rfl

/-- C2: the select-clause loop does NOT accept a final column followed by the
next clause keyword: it demands a comma after every column (including the
last) and only stops on an identifier lookahead, so `SELECT a LIMIT 10` dies
at the comma consumption with an unexpected-token error on `LIMIT`; in fact
neither copy's `parse()` can return an AST on any token stream at all. -/
theorem c2_select_loop_boundary :
    (jsParse 32 ⟨[Tok.kw "SELECT", Tok.ident "a", Tok.kw "LIMIT", Tok.num "10",
        Tok.eof], 0⟩ = .error (.unexpectedToken (Tok.kw "LIMIT") 2)) ∧
    (∀ (fuel : Nat) (st : ParserState), exceptOk (jsParse fuel st) = false) ∧
    (∀ (fuel : Nat) (st : ParserState), exceptOk (tsParse fuel st) = false) :=
  ⟨rfl, jsParse_not_ok, tsParse_not_ok⟩

/-- C3: the compiled copy's `_consumeColumn` produces the claimed descriptors
— alias as `identifier` when given, otherwise `FUNC(column)` for an
aggregation, otherwise the bare column, with COUNT carrying no column — but
the full example query `SELECT COUNT() AS total, AVG(x) AS avgx WHERE x>0`
does not yield those select columns: the select loop raises an
unexpected-token error on `WHERE` at the mandatory comma after the second
column. -/
theorem c3_column_descriptor_shape :
    (∀ p : Nat,
        jsConsumeColumn ⟨[Tok.agg "COUNT", Tok.lp, Tok.rp, Tok.kw "AS",
            Tok.ident "total"], p⟩ =
          .ok ({ identifier := some "total", column := none,
                 aggregationFunction := some "COUNT" }, ⟨[], p + 5⟩)) ∧
    (∀ (c : String) (p : Nat),
        jsConsumeColumn ⟨[Tok.agg "AVG", Tok.lp, Tok.ident c, Tok.rp, Tok.kw "AS",
            Tok.ident "avgx"], p⟩ =
          .ok ({ identifier := some "avgx", column := some c,
                 aggregationFunction := some "AVG" }, ⟨[], p + 6⟩)) ∧
    (∀ (c : String) (p : Nat),
        jsConsumeColumn ⟨[Tok.agg "SUM", Tok.lp, Tok.ident c, Tok.rp], p⟩ =
          .ok ({ identifier := some ("SUM(" ++ c ++ ")"), column := some c,
                 aggregationFunction := some "SUM" }, ⟨[], p + 4⟩)) ∧
    (∀ p : Nat,
        jsConsumeColumn ⟨[Tok.agg "COUNT", Tok.lp, Tok.rp], p⟩ =
          .ok ({ identifier := some "COUNT()", column := none,
                 aggregationFunction := some "COUNT" }, ⟨[], p + 3⟩)) ∧
    (∀ (c : String) (p : Nat),
        jsConsumeColumn ⟨[Tok.ident c], p⟩ =
          .ok ({ identifier := some c, column := some c,
                 aggregationFunction := none }, ⟨[], p + 1⟩)) ∧
    (jsParse 32 ⟨[Tok.kw "SELECT", Tok.agg "COUNT", Tok.lp, Tok.rp, Tok.kw "AS",
        Tok.ident "total", Tok.comma, Tok.agg "AVG", Tok.lp, Tok.ident "x", Tok.rp,
        Tok.kw "AS", Tok.ident "avgx", Tok.kw "WHERE", Tok.ident "x", Tok.cmp ">",
        Tok.num "0", Tok.eof], 0⟩ = .error (.unexpectedToken (Tok.kw "WHERE") 13)) :=
  ⟨fun _ => rfl, fun _ _ => rfl, fun _ _ => rfl, fun _ => rfl, fun _ _ => rfl, rfl⟩

/-- C4: the compiled copy's plot-argument dispatch builds exactly the claimed
payloads for BAR, LINE and SCATTER and rejects any other plot-function text
(e.g. `FOO`) with the invalid-plot-type error; but the example query
`PLOT BAR(category, value) SELECT category, value` produces no AST at all:
after the plot clause the select loop leaves the identifier `value`
unconsumed and the end-of-input check raises an unexpected-token error. -/
theorem c4_plot_dispatch :
    (∀ (c v : String) (p : Nat),
        jsConsumePlotClauseOptional ⟨[Tok.kw "PLOT", Tok.plotFn "BAR", Tok.lp,
            Tok.ident c, Tok.comma, Tok.ident v, Tok.rp], p⟩ =
          .ok (some (.bar c v), ⟨[], p + 7⟩)) ∧
    (∀ (x y : String) (p : Nat),
        jsConsumePlotClauseOptional ⟨[Tok.kw "PLOT", Tok.plotFn "LINE", Tok.lp,
            Tok.ident x, Tok.comma, Tok.ident y, Tok.rp], p⟩ =
          .ok (some (.point "LINE" x y), ⟨[], p + 7⟩)) ∧
    (∀ (x y : String) (p : Nat),
        jsConsumePlotClauseOptional ⟨[Tok.kw "PLOT", Tok.plotFn "SCATTER", Tok.lp,
            Tok.ident x, Tok.comma, Tok.ident y, Tok.rp], p⟩ =
          .ok (some (.point "SCATTER" x y), ⟨[], p + 7⟩)) ∧
    (∀ st : ParserState, jsConsumePlotArgs "FOO" st = .error (.invalidPlotType "FOO")) ∧
    (jsParse 32 ⟨[Tok.kw "PLOT", Tok.plotFn "BAR", Tok.lp, Tok.ident "category",
        Tok.comma, Tok.ident "value", Tok.rp, Tok.kw "SELECT", Tok.ident "category",
        Tok.comma, Tok.ident "value", Tok.eof], 0⟩ =
      .error (.unexpectedToken (Tok.ident "value") 10)) :=
  ⟨fun _ _ _ => rfl, fun _ _ _ => rfl, fun _ _ _ => rfl, fun _ => rfl, rfl⟩

/-- C5: every relational operator (`>`, `>=`, `<`, `<=`) succeeds exactly
when the right-hand token is a NUMBER and produces the numeric comparison;
`=` and `!=` succeed exactly when the right-hand token is a STRING, NUMBER or
NULL literal and produce the corresponding comparison value; any other
literal kind (such as the identifier `TRUE`) raises the error signal, and the
example query `SELECT a WHERE a = TRUE` produces an error and no AST. -/
theorem c5_comparison_value_typing :
    (∀ (k v : String) (p : Nat),
        consumeComparison ⟨[Tok.ident k, Tok.cmp ">", Tok.num v], p⟩ =
          .ok (.gt k (jsNumber v), ⟨[], p + 3⟩) ∧
        consumeComparison ⟨[Tok.ident k, Tok.cmp ">=", Tok.num v], p⟩ =
          .ok (.gte k (jsNumber v), ⟨[], p + 3⟩) ∧
        consumeComparison ⟨[Tok.ident k, Tok.cmp "<", Tok.num v], p⟩ =
          .ok (.lt k (jsNumber v), ⟨[], p + 3⟩) ∧
        consumeComparison ⟨[Tok.ident k, Tok.cmp "<=", Tok.num v], p⟩ =
          .ok (.lte k (jsNumber v), ⟨[], p + 3⟩)) ∧
    (∀ (k : String) (t : Token) (p : Nat),
        exceptOk (consumeComparison ⟨[Tok.ident k, Tok.cmp ">", t], p⟩) =
          (t.type == .NUMBER) ∧
        exceptOk (consumeComparison ⟨[Tok.ident k, Tok.cmp ">=", t], p⟩) =
          (t.type == .NUMBER) ∧
        exceptOk (consumeComparison ⟨[Tok.ident k, Tok.cmp "<", t], p⟩) =
          (t.type == .NUMBER) ∧
        exceptOk (consumeComparison ⟨[Tok.ident k, Tok.cmp "<=", t], p⟩) =
          (t.type == .NUMBER)) ∧
    (∀ (k s : String) (p : Nat),
        consumeComparison ⟨[Tok.ident k, Tok.cmp "=", Tok.strLit s], p⟩ =
          .ok (.eq k (.str s), ⟨[], p + 3⟩) ∧
        consumeComparison ⟨[Tok.ident k, Tok.cmp "=", Tok.num s], p⟩ =
          .ok (.eq k (.num (jsNumber s)), ⟨[], p + 3⟩) ∧
        consumeComparison ⟨[Tok.ident k, Tok.cmp "=", Tok.nul], p⟩ =
          .ok (.eq k .null, ⟨[], p + 3⟩)) ∧
    (∀ (k s : String) (p : Nat),
        consumeComparison ⟨[Tok.ident k, Tok.cmp "!=", Tok.strLit s], p⟩ =
          .ok (.neq k (.str s), ⟨[], p + 3⟩) ∧
        consumeComparison ⟨[Tok.ident k, Tok.cmp "!=", Tok.num s], p⟩ =
          .ok (.neq k (.num (jsNumber s)), ⟨[], p + 3⟩) ∧
        consumeComparison ⟨[Tok.ident k, Tok.cmp "!=", Tok.nul], p⟩ =
          .ok (.neq k .null, ⟨[], p + 3⟩)) ∧
    (∀ (k : String) (t : Token) (p : Nat),
        exceptOk (consumeComparison ⟨[Tok.ident k, Tok.cmp "=", t], p⟩) =
          (t.type == .STRING || t.type == .NUMBER || t.type == .NULL) ∧
        exceptOk (consumeComparison ⟨[Tok.ident k, Tok.cmp "!=", t], p⟩) =
          (t.type == .STRING || t.type == .NUMBER || t.type == .NULL)) ∧
    (consumeComparison ⟨[Tok.ident "a", Tok.cmp "=", Tok.ident "TRUE"], 0⟩ =
      .error .equalComparisonNotAllowed) ∧
    (jsParse 32 ⟨[Tok.kw "SELECT", Tok.ident "a", Tok.kw "WHERE", Tok.ident "a",
        Tok.cmp "=", Tok.ident "TRUE", Tok.eof], 0⟩ =
      .error (.unexpectedToken (Tok.kw "WHERE") 2)) := by
  refine ⟨fun _ _ _ => ⟨rfl, rfl, rfl, rfl⟩, ?_, fun _ _ _ => ⟨rfl, rfl, rfl⟩,
    fun _ _ _ => ⟨rfl, rfl, rfl⟩, ?_, rfl, rfl⟩
  · intro _ t _
    obtain ⟨ty, _⟩ := t
    cases ty <;> exact ⟨rfl, rfl, rfl, rfl⟩
  · intro _ t _
    obtain ⟨ty, _⟩ := t
    cases ty <;> exact ⟨rfl, rfl⟩

/-- C6: `_consumeLimitAndOffsetClauseOptional` defaults the offset to 0 when
no `OFFSET` follows, and reads it when one does — `LIMIT 10` gives
`{limit 10, offset 0}` and `LIMIT 10 OFFSET 5` gives `{limit 10, offset 5}` —
but the example query `SELECT a LIMIT 10` yields no `limitAndOffset` at all:
the select loop raises an unexpected-token error on `LIMIT` first. -/
theorem c6_limit_default_offset :
    (∀ (v : String) (p : Nat),
        consumeLimitAndOffsetClauseOptional ⟨[Tok.kw "LIMIT", Tok.num v], p⟩ =
          .ok (some ⟨jsNumber v, 0⟩, ⟨[], p + 2⟩)) ∧
    (∀ (v w : String) (p : Nat),
        consumeLimitAndOffsetClauseOptional ⟨[Tok.kw "LIMIT", Tok.num v,
            Tok.kw "OFFSET", Tok.num w], p⟩ =
          .ok (some ⟨jsNumber v, jsNumber w⟩, ⟨[], p + 4⟩)) ∧
    (consumeLimitAndOffsetClauseOptional ⟨[Tok.kw "LIMIT", Tok.num "10"], 0⟩ =
      .ok (some ⟨10, 0⟩, ⟨[], 2⟩)) ∧
    (consumeLimitAndOffsetClauseOptional ⟨[Tok.kw "LIMIT", Tok.num "10",
        Tok.kw "OFFSET", Tok.num "5"], 0⟩ = .ok (some ⟨10, 5⟩, ⟨[], 4⟩)) ∧
    (jsParse 32 ⟨[Tok.kw "SELECT", Tok.ident "a", Tok.kw "LIMIT", Tok.num "10",
        Tok.eof], 0⟩ = .error (.unexpectedToken (Tok.kw "LIMIT") 2)) :=
  ⟨fun _ _ => rfl, fun _ _ _ => rfl, rfl, rfl, rfl⟩

/-- C7: the data-model invariants hold at the clause level: whenever the
select-clause loop returns, the column list is non-empty, and whenever
`_consumeCondition` returns, every `and`/`or` node of the tree has at least
two children (a single-operand group collapses to the operand); in
particular `(k > v)` parses to the bare comparison with no wrapper. -/
theorem c7_ast_invariants :
    (∀ (α : Type) (col : Parse α) (fuel : Nat) (st : ParserState) (cs : List α)
        (st2 : ParserState), selectLoop col fuel st = .ok (cs, st2) → 1 ≤ cs.length) ∧
    (∀ (fuel : Nat) (st : ParserState) (c : WhereCondition) (st2 : ParserState),
        consumeCondition fuel st = .ok (c, st2) → c.wellFormed = true) ∧
    (∀ (k v : String) (p : Nat),
        consumeCondition 32 ⟨[Tok.lp, Tok.ident k, Tok.cmp ">", Tok.num v, Tok.rp], p⟩ =
          .ok (.gt k (jsNumber v), ⟨[], p + 5⟩)) :=
  ⟨fun _ col fuel st cs st2 h => (selectLoop_ok col fuel st cs st2 h).2,
   fun fuel st c st2 h => (condition_wf_all fuel).2.2.2.2 st c st2 h,
   fun _ _ _ => rfl⟩

/-- C7 witness: the invariant theorems applied at concrete successful runs of
the select loop and the condition parser. -/
theorem c7_ast_invariants_witness :
    1 ≤ [ColumnMetadata.mk (some "a") (some "a") none].length ∧
    WhereCondition.wellFormed
      (.or [.eq "a" (.num 1), .and [.eq "b" (.num 2), .eq "c" (.num 3)]]) = true :=
  ⟨c7_ast_invariants.1 ColumnMetadata jsConsumeColumn 10
      ⟨[Tok.ident "a", Tok.comma, Tok.ident "b"], 0⟩
      [ColumnMetadata.mk (some "a") (some "a") none] ⟨[Tok.ident "b"], 2⟩ rfl,
   c7_ast_invariants.2.1 32
      ⟨[Tok.ident "a", Tok.cmp "=", Tok.num "1", Tok.lop "OR", Tok.ident "b",
        Tok.cmp "=", Tok.num "2", Tok.lop "AND", Tok.ident "c", Tok.cmp "=",
        Tok.num "3"], 0⟩
      (.or [.eq "a" (.num 1), .and [.eq "b" (.num 2), .eq "c" (.num 3)]])
      ⟨[], 11⟩ rfl⟩

/-- C8: when the five clause consumptions of `parse()` succeed but the
remaining lookahead is not the end-of-input token, `parse()` raises the
unexpected-token error at that token and position — the trailing-garbage
check is the final EOF consumption. -/
theorem c8_trailing_garbage (fuel : Nat) (st : ParserState) (q : SPLQuery)
    (st5 : ParserState) (hok : jsParseClauses fuel st = .ok (q, st5))
    (hne : (curTok st5).type ≠ .EOF) :
    jsParse fuel st = .error (.unexpectedToken (curTok st5) st5.pos) := by
  have step1 : jsParse fuel st =
      (pbind (consumeToken .EOF none) fun _ => ppure q) st5 := pbind_eq_of_ok hok
  rw [step1, pbind_eq_of_error (consumeToken_not_ok hne)]

/-- C8 witness: on `SELECT a , b` the clause cascade succeeds with the
identifier `b` left over, and `parse()` fails at the end-of-input check. -/
theorem c8_trailing_garbage_witness :
    jsParse 32 ⟨[Tok.kw "SELECT", Tok.ident "a", Tok.comma, Tok.ident "b"], 0⟩ =
      .error (.unexpectedToken (Tok.ident "b") 3) :=
  c8_trailing_garbage 32 ⟨[Tok.kw "SELECT", Tok.ident "a", Tok.comma, Tok.ident "b"], 0⟩
    { plotClause := none,
      selectColumns := [ColumnMetadata.mk (some "a") (some "a") none],
      whereCondition := none, groupKey := none, limitAndOffset := none }
    ⟨[Tok.ident "b"], 3⟩ rfl (by decide)

/-- C9 counterexample: the unsupported-literal error raised by
`_consumeComparisonValue` carries a fixed message that contains neither the
offending token's text `TRUE` nor the scan position (7, and indeed no digit
at all) — refuting the claim that every error message includes both. -/
theorem c9_fixed_message_counterexample :
    consumeComparison ⟨[Tok.ident "a", Tok.cmp "=", Tok.ident "TRUE"], 5⟩ =
        .error .equalComparisonNotAllowed ∧
    containsSub (SPLError.message .equalComparisonNotAllowed) "TRUE" = false ∧
    containsSub (SPLError.message .equalComparisonNotAllowed) "7" = false :=
  ⟨rfl, by decide, by decide⟩

/-- C9 amended: only the unexpected-token errors of `_consumeToken` carry
both the token's representation and the scan position in their message; the
invalid-plot-type and invalid-comparison-operator errors carry the offending
text but no position; the unsupported-literal error is a fixed sentence
carrying neither. -/
theorem c9_error_message_contents :
    (∀ (t : Token) (p : Nat),
        containsSub ((SPLError.unexpectedToken t p).message) t.value = true ∧
        containsSub ((SPLError.unexpectedToken t p).message) (toString p) = true) ∧
    (∀ v : String,
        (SPLError.invalidPlotType v).message = "Invalid plot type " ++ v ∧
        containsSub ((SPLError.invalidPlotType v).message) v = true) ∧
    (∀ v : String,
        (SPLError.invalidComparisonOperator v).message =
          "Invalid comparison operator " ++ v ∧
        containsSub ((SPLError.invalidComparisonOperator v).message) v = true) ∧
    SPLError.message .equalComparisonNotAllowed =
      "Equal comparison allowed only for string, number, and null" := by
  refine ⟨fun t p => ⟨?_, ?_⟩, fun v => ⟨rfl, ?_⟩, fun v => ⟨rfl, ?_⟩, rfl⟩
  · have hmsg : (SPLError.unexpectedToken t p).message =
        ("Unexpected token " ++
          ("\x7b\"type\":\"" ++ tokenTypeName t.type ++ "\",\"value\":\"")) ++
        t.value ++ ("\"\x7d" ++ (" at position " ++ toString p)) := by
      show "Unexpected token " ++ stringifyToken t ++ " at position " ++ toString p = _
      unfold stringifyToken
      simp only [String.append_assoc]
    rw [hmsg]
    exact containsSub_append _ _ _
  · have hmsg : (SPLError.unexpectedToken t p).message =
        ("Unexpected token " ++ stringifyToken t ++ " at position ") ++ toString p ++ "" := by
      rw [String.append_empty]
      show "Unexpected token " ++ stringifyToken t ++ " at position " ++ toString p = _
      simp only [String.append_assoc]
    rw [hmsg]
    exact containsSub_append _ _ _
  · have hmsg : (SPLError.invalidPlotType v).message = "Invalid plot type " ++ v ++ "" := by
      rw [String.append_empty]; rfl
    rw [hmsg]
    exact containsSub_append _ _ _
  · have hmsg : (SPLError.invalidComparisonOperator v).message =
        "Invalid comparison operator " ++ v ++ "" := by
      rw [String.append_empty]; rfl
    rw [hmsg]
    exact containsSub_append _ _ _

/-- C10 counterexample: the two parser copies are not behaviourally
equivalent: on the single-token stream `SELECT`, the TypeScript source fails
immediately on the SELECT keyword (position 0) while the compiled copy
consumes it and fails on end-of-input (position 1) — they do not fail after
consuming the same tokens. -/
theorem c10_not_equivalent_counterexample :
    tsParse 32 ⟨[Tok.kw "SELECT"], 0⟩ =
        .error (.unexpectedToken (Tok.kw "SELECT") 0) ∧
    jsParse 32 ⟨[Tok.kw "SELECT"], 0⟩ = .error (.unexpectedToken Tok.eof 1) ∧
    (errPos (tsParse 32 ⟨[Tok.kw "SELECT"], 0⟩) ==
      errPos (jsParse 32 ⟨[Tok.kw "SELECT"], 0⟩)) = false :=
  ⟨rfl, rfl, rfl⟩

/-- C10 amended: the copies disagree in all three cited places — the
compiled copy consumes a leading SELECT keyword while the TypeScript source
does not (failing at different positions on the stream `SELECT`), the
compiled copy synthesises an `identifier` display name while the TypeScript
source records only the explicit alias as `displayName`, and the compiled
copy's BAR payload is two identifier strings while the TypeScript source's
is two column descriptors. -/
theorem c10_implementation_divergences :
    (tsParse 32 ⟨[Tok.kw "SELECT"], 0⟩ =
        .error (.unexpectedToken (Tok.kw "SELECT") 0) ∧
      jsParse 32 ⟨[Tok.kw "SELECT"], 0⟩ = .error (.unexpectedToken Tok.eof 1)) ∧
    (∀ (c : String) (p : Nat),
        jsConsumeColumn ⟨[Tok.ident c], p⟩ =
          .ok ({ identifier := some c, column := some c,
                 aggregationFunction := none }, ⟨[], p + 1⟩) ∧
        tsConsumeColumn ⟨[Tok.ident c], p⟩ =
          .ok ({ column := some c, displayName := none,
                 aggregationFunction := none }, ⟨[], p + 1⟩)) ∧
    (∀ (x y : String) (p : Nat),
        jsConsumePlotArgs "BAR" ⟨[Tok.ident x, Tok.comma, Tok.ident y], p⟩ =
          .ok (.bar x y, ⟨[], p + 3⟩) ∧
        tsConsumePlotArgs "BAR" ⟨[Tok.ident x, Tok.comma, Tok.ident y], p⟩ =
          .ok (.bar (TsColumnMetadata.mk (some x) none none)
                    (TsColumnMetadata.mk (some y) none none), ⟨[], p + 3⟩)) :=
  ⟨⟨rfl, rfl⟩, fun _ _ => ⟨rfl, rfl⟩, fun _ _ _ => ⟨rfl, rfl⟩⟩
